import Mathlib

/-!
Verification of the TensorFlow batch-prediction pipeline builder
(`pipelines/pipelines/tensorflow/prediction/pipeline.py`).

The builder `tensorflow_pipeline` is a pure function from pipeline
parameters to a static step graph: ten steps wired by data edges
(output references consumed as inputs) and explicit `.after(...)`
ordering edges.  We embed the builder shallowly: each step's concrete
arguments become a record of strings/booleans, and the two edge kinds
become functions `StepId → List ...` that the builder fills in.

Execution semantics (the external orchestration engine, described in
the spec): steps run following the declared partial order, and a step
is scheduled only once every one of its predecessors (data or
ordering) has completed successfully.  We model a run by a function
`fails : StepId → Bool` marking which steps fail at run time, and
compute the set of steps that complete by folding over a topological
enumeration of the ten steps.
-/

/-- The ten steps declared by `tensorflow_pipeline`, in declaration order. -/
inductive StepId where
  | ingest
  | dataForPrediction
  | dataForValidation
  | generateStatistics
  | visualiseStatistics
  | validateSkew
  | showAnomalies
  | lookupModel
  | batchPrediction
  | loadPredictions
deriving DecidableEq, Repr, Fintype

/-- The parameters of `tensorflow_pipeline` (lines 38-53 of the source).
Default values come from the environment and are irrelevant to the graph
shape; we treat every invocation as supplying all fifteen parameters. -/
structure PipelineParams where
  project_id : String
  project_location : String
  pipeline_files_gcs_path : String
  ingestion_project_id : String
  tfdv_schema_filename : String
  tfdv_train_stats_path : String
  model_name : String
  model_label : String
  dataset_id : String
  dataset_location : String
  ingestion_dataset_id : String
  timestamp : String
  batch_prediction_machine_type : String
  batch_prediction_min_replicas : Int
  batch_prediction_max_replicas : Int

/-- A single-quote character (code point 39), used when rendering the
ingestion query. -/
def singleQuote : String := String.singleton (Char.ofNat 39)

/-- Modelled from the spec: the query templater `generate_query` and the
`queries/ingest.sql` template are repository code not under `src/`.  Per the
spec, the rendered ingestion query filters `filter_column >= 'timestamp'`
against `source_dataset.source_table`. -/
def generate_query (source_dataset source_table filter_column
    filter_start_value : String) : String :=
  "SELECT * FROM " ++ source_dataset ++ "." ++ source_table ++
    " WHERE " ++ filter_column ++ " >= " ++ singleQuote ++ filter_start_value ++ singleQuote

/-- Modelled from the spec: the `show_anomalies` component is repository code
not under `src/`.  Per the spec (step 9), the anomaly gate halts (fails the
run at this step) exactly when it is configured to fail on anomalies and the
report contains at least one anomaly. -/
def show_anomalies_fails (anomalyCount : Nat) (fail_on_anomalies : Bool) :
    Bool :=
  fail_on_anomalies && decide (1 ≤ anomalyCount)

/-- Modelled from the spec: the `lookup_model` component is repository code
not under `src/`.  Per the spec (step 10), model lookup fails the run exactly
when no model matches the requested name and label and
`fail_on_model_not_found` is enabled. -/
def lookup_model_fails (modelFound : Bool) (fail_on_model_not_found : Bool) :
    Bool :=
  fail_on_model_not_found && !modelFound

/-- Arguments of the `bq_query_to_table` ingest step (lines 115-124). -/
structure IngestArgs where
  query : String
  table_id : String
  bq_client_project_id : String
  destination_project_id : String
  dataset_id : String
  dataset_location : String
  write_disposition : String

/-- Arguments of an `extract_bq_to_dataset` step (lines 127-155). -/
structure ExtractArgs where
  bq_client_project_id : String
  source_project_id : String
  dataset_id : String
  table_name : String
  dataset_location : String
  destination_format : String
  file_pattern : String

/-- Arguments of the `show_anomalies` gate step (lines 182-184). -/
structure ShowAnomaliesArgs where
  fail_on_anomalies : Bool

/-- Arguments of the `lookup_model` step (lines 187-193). -/
structure LookupModelArgs where
  model_name : String
  model_label : String
  project_location : String
  project_id : String
  fail_on_model_not_found : Bool

/-- Arguments of the `ModelBatchPredictOp` step (lines 201-217). -/
structure BatchPredictArgs where
  project : String
  location : String
  instances_format : String
  predictions_format : String
  machine_type : String
  starting_replica_count : Int
  max_replica_count : Int

/-- Arguments of the `load_dataset_to_bq` step (lines 220-231). -/
structure LoadArgs where
  bq_client_project_id : String
  destination_project_id : String
  dataset_id : String
  table_name : String
  dataset_location : String

/-- The built pipeline graph: per-step concrete arguments, plus the two
kinds of dependency edge.  `dataInputs s` lists the upstream output
references step `s` consumes, as (producing step, output name) pairs;
`afterEdges s` lists the explicit `.after(...)` ordering predecessors. -/
structure Graph where
  dataInputs : StepId → List (StepId × String)
  afterEdges : StepId → List StepId
  ingest_args : IngestArgs
  extract_prediction_args : ExtractArgs
  extract_validation_args : ExtractArgs
  show_anomalies_args : ShowAnomaliesArgs
  lookup_model_args : LookupModelArgs
  batch_prediction_args : BatchPredictArgs
  load_args : LoadArgs
  tfdv_schema_path : String

/-- Data edges of the built graph, read off the output references consumed
by each step in the source (lines 158-231). -/
def stepDataInputs : StepId → List (StepId × String)
  | .generateStatistics => [(.dataForValidation, "dataset")]
  | .visualiseStatistics => [(.generateStatistics, "Output")]
  | .validateSkew => [(.generateStatistics, "Output")]
  | .showAnomalies => [(.validateSkew, "Output")]
  | .batchPrediction =>
      [(.lookupModel, "model"), (.dataForPrediction, "dataset_gcs_uri"),
       (.dataForPrediction, "dataset_gcs_prefix")]
  | .loadPredictions => [(.batchPrediction, "batchpredictionjob")]
  | _ => []

/-- Explicit `.after(...)` ordering edges of the built graph
(lines 139, 153, 215, 229). -/
def stepAfterEdges : StepId → List StepId
  | .dataForPrediction => [.ingest]
  | .dataForValidation => [.ingest]
  | .batchPrediction => [.showAnomalies]
  | .loadPredictions => [.batchPrediction]
  | _ => []

/-- The builder: the body of `tensorflow_pipeline` (lines 38-231),
translated step by step.  Local constants (lines 96-100) are inlined. -/
def tensorflow_pipeline (p : PipelineParams) : Graph :=
  let file_pattern := ""
  let time_column := "trip_start_timestamp"
  let ingestion_table := "taxi_trips"
  let table_suffix := "_tf_prediction"
  let ingested_table := "ingested_data" ++ table_suffix
  let ingest_query := generate_query
    (p.ingestion_project_id ++ "." ++ p.ingestion_dataset_id)
    ingestion_table time_column p.timestamp
  { dataInputs := stepDataInputs
    afterEdges := stepAfterEdges
    ingest_args :=
      { query := ingest_query
        table_id := ingested_table
        bq_client_project_id := p.project_id
        destination_project_id := p.project_id
        dataset_id := p.dataset_id
        dataset_location := p.dataset_location
        write_disposition := "WRITE_TRUNCATE" }
    extract_prediction_args :=
      { bq_client_project_id := p.project_id
        source_project_id := p.project_id
        dataset_id := p.dataset_id
        table_name := ingested_table
        dataset_location := p.dataset_location
        destination_format := "NEWLINE_DELIMITED_JSON"
        file_pattern := file_pattern }
    extract_validation_args :=
      { bq_client_project_id := p.project_id
        source_project_id := p.project_id
        dataset_id := p.dataset_id
        table_name := ingested_table
        dataset_location := p.dataset_location
        destination_format := "CSV"
        file_pattern := file_pattern }
    show_anomalies_args := { fail_on_anomalies := true }
    lookup_model_args :=
      { model_name := p.model_name
        model_label := p.model_label
        project_location := p.project_location
        project_id := p.project_id
        fail_on_model_not_found := true }
    batch_prediction_args :=
      { project := p.project_id
        location := p.project_location
        instances_format := "jsonl"
        predictions_format := "jsonl"
        machine_type := p.batch_prediction_machine_type
        starting_replica_count := p.batch_prediction_min_replicas
        max_replica_count := p.batch_prediction_max_replicas }
    load_args :=
      { bq_client_project_id := p.project_id
        destination_project_id := p.project_id
        dataset_id := p.dataset_id
        table_name := "tensorflow_staging_predictions"
        dataset_location := p.dataset_location }
    tfdv_schema_path :=
      p.pipeline_files_gcs_path ++ "/prediction/assets/" ++
        p.tfdv_schema_filename }

/-- All predecessors of a step: producers of its data inputs plus its
explicit ordering predecessors. -/
def Graph.preds (g : Graph) (s : StepId) : List StepId :=
  (g.dataInputs s).map Prod.fst ++ g.afterEdges s

/-- The dependency relation of a graph: `g.Edge a b` holds when step `b`
depends on step `a` (by data or by explicit ordering). -/
def Graph.Edge (g : Graph) (a b : StepId) : Prop :=
  a ∈ g.preds b

instance (g : Graph) (a b : StepId) : Decidable (g.Edge a b) := by
  unfold Graph.Edge; infer_instance

/-- The ten steps in the order the builder declares them; this order turns
out to be topological for the built graph. -/
def topoOrder : List StepId :=
  [.ingest, .dataForPrediction, .dataForValidation, .generateStatistics,
   .visualiseStatistics, .validateSkew, .showAnomalies, .lookupModel,
   .batchPrediction, .loadPredictions]

/-- Position of a step in the builder's declaration order. -/
def stepIndex : StepId → Nat
  | .ingest => 0
  | .dataForPrediction => 1
  | .dataForValidation => 2
  | .generateStatistics => 3
  | .visualiseStatistics => 4
  | .validateSkew => 5
  | .showAnomalies => 6
  | .lookupModel => 7
  | .batchPrediction => 8
  | .loadPredictions => 9

/-- One scheduling round: step `s` completes (is appended to `done`) iff
all its predecessors have completed and `s` itself does not fail. -/
def Graph.schedStep (g : Graph) (fails : StepId → Bool)
    (done : List StepId) (s : StepId) : List StepId :=
  if (∀ q ∈ g.preds s, q ∈ done) ∧ fails s = false then done.concat s
  else done

/-- Fold the scheduling rounds over a list of steps. -/
def Graph.completedAux (g : Graph) (fails : StepId → Bool) :
    List StepId → List StepId → List StepId
  | [], done => done
  | s :: rest, done => g.completedAux fails rest (g.schedStep fails done s)

/-- The set of steps that complete successfully in a run where exactly the
steps with `fails s = true` fail at run time. -/
def Graph.completed (g : Graph) (fails : StepId → Bool) : List StepId :=
  g.completedAux fails topoOrder []

/-- A step is scheduled in a run iff every one of its predecessors
completed successfully. -/
def Graph.scheduled (g : Graph) (fails : StepId → Bool) (s : StepId) :
    Bool :=
  decide (∀ q ∈ g.preds s, q ∈ g.completed fails)

/-- Scheduling rounds only ever extend the completed set. -/
theorem Graph.subset_schedStep (g : Graph) (fails : StepId → Bool)
    (done : List StepId) (s : StepId) :
    done ⊆ g.schedStep fails done s := by
  unfold Graph.schedStep
  split
  · intro x hx
    simp [List.concat_eq_append]
    exact Or.inl hx
  · exact fun x hx => hx

/-- The fold over the remaining steps only ever extends the completed set. -/
theorem Graph.subset_completedAux (g : Graph) (fails : StepId → Bool)
    (l : List StepId) :
    ∀ done, done ⊆ g.completedAux fails l done := by
  induction l with
  | nil => intro done; exact fun x hx => hx
  | cons s rest ih =>
      intro done
      exact fun x hx =>
        ih (g.schedStep fails done s) (g.subset_schedStep fails done s hx)

/-- Any step in the completed set either was there initially or failed not
and had all its predecessors completed. -/
theorem Graph.mem_completedAux (g : Graph) (fails : StepId → Bool)
    (l : List StepId) :
    ∀ done x, x ∈ g.completedAux fails l done →
      x ∈ done ∨
        (fails x = false ∧ ∀ q ∈ g.preds x, q ∈ g.completedAux fails l done) := by
  induction l with
  | nil => intro done x hx; exact Or.inl hx
  | cons s rest ih =>
      intro done x hx
      have hx' : x ∈ g.completedAux fails rest (g.schedStep fails done s) := hx
      rcases ih (g.schedStep fails done s) x hx' with h | h
      · revert h
        unfold Graph.schedStep
        split
        · intro h
          rename_i hc
          rw [List.concat_eq_append] at h
          rcases List.mem_append.mp h with h | h
          · exact Or.inl h
          · have hxs : x = s := by simpa using h
            subst hxs
            refine Or.inr ⟨hc.2, fun q hq => ?_⟩
            have hq1 : q ∈ done := hc.1 q hq
            have hq2 : q ∈ g.schedStep fails done x :=
              g.subset_schedStep fails done x hq1
            exact g.subset_completedAux fails rest _ hq2
        · intro h; exact Or.inl h
      · exact Or.inr h

/-- A step that fails at run time never enters the completed set. -/
theorem Graph.not_completed_of_fails (g : Graph) (fails : StepId → Bool)
    (x : StepId) (h : fails x = true) : x ∉ g.completed fails := by
  intro hx
  rcases g.mem_completedAux fails topoOrder [] x hx with h0 | h0
  · simp at h0
  · rw [h] at h0
    simp at h0

/-- Every predecessor of a completed step is itself completed. -/
theorem Graph.preds_completed_of_completed (g : Graph) (fails : StepId → Bool)
    (x : StepId) (hx : x ∈ g.completed fails) :
    ∀ q ∈ g.preds x, q ∈ g.completed fails := by
  rcases g.mem_completedAux fails topoOrder [] x hx with h0 | h0
  · simp at h0
  · exact h0.2

/-- A step with an uncompleted predecessor never enters the completed set. -/
theorem Graph.not_completed_of_pred (g : Graph) (fails : StepId → Bool)
    (s q : StepId) (hq : q ∈ g.preds s) (h : q ∉ g.completed fails) :
    s ∉ g.completed fails := by
  intro hs
  exact h (g.preds_completed_of_completed fails s hs q hq)

/-- A step with an uncompleted predecessor is never scheduled. -/
theorem Graph.not_scheduled_of_pred (g : Graph) (fails : StepId → Bool)
    (s q : StepId) (hq : q ∈ g.preds s) (h : q ∉ g.completed fails) :
    g.scheduled fails s = false := by
  unfold Graph.scheduled
  simp only [decide_eq_false_iff_not]
  intro hall
  exact h (hall q hq)

/-- A concrete parameter assignment, used to instantiate theorems. -/
def sampleParams : PipelineParams :=
  { project_id := "my-project"
    project_location := "europe-west2"
    pipeline_files_gcs_path := "gs://bucket"
    ingestion_project_id := "ingest-project"
    tfdv_schema_filename := "schema.pbtxt"
    tfdv_train_stats_path := "gs://bucket/train_stats"
    model_name := "tensorflow_with_preprocessing"
    model_label := "label_name"
    dataset_id := "preprocessing"
    dataset_location := "europe-west2"
    ingestion_dataset_id := "chicago_taxi_trips"
    timestamp := "2022-12-01 00:00:00"
    batch_prediction_machine_type := "n1-standard-4"
    batch_prediction_min_replicas := 3
    batch_prediction_max_replicas := 10 }

/-- A run in which only the anomaly gate fails. -/
def gateOnlyFails : StepId → Bool := fun s => decide (s = .showAnomalies)

/-- A run in which only model lookup fails. -/
def lookupOnlyFails : StepId → Bool := fun s => decide (s = .lookupModel)

/-- The predecessor lists of the built graph, independent of parameters. -/
def stepPreds (s : StepId) : List StepId :=
  (stepDataInputs s).map Prod.fst ++ stepAfterEdges s

/-- For every parameter assignment the built graph has the same (constant)
predecessor structure. -/
theorem tensorflow_pipeline_preds (p : PipelineParams) :
    (tensorflow_pipeline p).preds = stepPreds := rfl

/-- String concatenation is associative; proved on the underlying
character lists. -/
theorem string_append_assoc (a b c : String) :
    a ++ b ++ c = a ++ (b ++ c) := by
  rcases a with ⟨a⟩
  rcases b with ⟨b⟩
  rcases c with ⟨c⟩
  exact congrArg String.mk (List.append_assoc a b c)

/-- C1: In the built graph, the batch-inference step has an explicit
ordering dependency on the anomaly-gate step and the load-predictions step
depends on batch inference, so that when the gate is given a report with at
least one anomaly and fail-on-anomalies is enabled, neither batch inference
(step 11) nor load predictions (step 12) is ever scheduled. -/
theorem anomaly_gate_blocks_scoring (p : PipelineParams)
    (anomalyCount : Nat) (fails : StepId → Bool)
    (hrep : 1 ≤ anomalyCount)
    (hgate : fails .showAnomalies =
      show_anomalies_fails anomalyCount
        (tensorflow_pipeline p).show_anomalies_args.fail_on_anomalies) :
    StepId.showAnomalies ∈ (tensorflow_pipeline p).afterEdges .batchPrediction ∧
    StepId.batchPrediction ∈ (tensorflow_pipeline p).preds .loadPredictions ∧
    (tensorflow_pipeline p).scheduled fails .batchPrediction = false ∧
    (tensorflow_pipeline p).scheduled fails .loadPredictions = false := by
  have hflag : (tensorflow_pipeline p).show_anomalies_args.fail_on_anomalies
      = true := rfl
  have hf : fails .showAnomalies = true := by
    rw [hgate, hflag]
    simp [show_anomalies_fails, hrep]
  have hafter : (tensorflow_pipeline p).afterEdges = stepAfterEdges := rfl
  have hmem1 : StepId.showAnomalies ∈
      (tensorflow_pipeline p).preds .batchPrediction := by
    rw [tensorflow_pipeline_preds]; decide
  have hmem2 : StepId.batchPrediction ∈
      (tensorflow_pipeline p).preds .loadPredictions := by
    rw [tensorflow_pipeline_preds]; decide
  have hsa_nc : StepId.showAnomalies ∉
      (tensorflow_pipeline p).completed fails :=
    (tensorflow_pipeline p).not_completed_of_fails fails _ hf
  have hbp_nc : StepId.batchPrediction ∉
      (tensorflow_pipeline p).completed fails :=
    (tensorflow_pipeline p).not_completed_of_pred fails _ _ hmem1 hsa_nc
  refine ⟨by rw [hafter]; decide, hmem2, ?_, ?_⟩
  · exact (tensorflow_pipeline p).not_scheduled_of_pred fails _ _ hmem1 hsa_nc
  · exact (tensorflow_pipeline p).not_scheduled_of_pred fails _ _ hmem2 hbp_nc

set_option maxRecDepth 8000 in
/-- Witness for C1: a concrete run where only the anomaly gate fails
(a report with two anomalies, gate strict) blocks both downstream steps. -/
theorem anomaly_gate_blocks_scoring_witness :
    1 ≤ 2 ∧
    gateOnlyFails .showAnomalies =
      show_anomalies_fails 2
        (tensorflow_pipeline sampleParams).show_anomalies_args.fail_on_anomalies ∧
    (tensorflow_pipeline sampleParams).scheduled gateOnlyFails
      .batchPrediction = false ∧
    (tensorflow_pipeline sampleParams).scheduled gateOnlyFails
      .loadPredictions = false :=
  ⟨by decide, by decide,
   (anomaly_gate_blocks_scoring sampleParams 2 gateOnlyFails (by decide)
     (by decide)).2.2.1,
   (anomaly_gate_blocks_scoring sampleParams 2 gateOnlyFails (by decide)
     (by decide)).2.2.2⟩

/-- C3: When model lookup runs with fail_on_model_not_found enabled and no
model matches, the run halts at the lookup step: batch inference consumes
the resolved model output (a data edge from the lookup step) and is never
scheduled, nor is the load-predictions step after it. -/
theorem model_lookup_failure_blocks_inference (p : PipelineParams)
    (fails : StepId → Bool)
    (hlookup : fails .lookupModel =
      lookup_model_fails false
        (tensorflow_pipeline p).lookup_model_args.fail_on_model_not_found) :
    (StepId.lookupModel, "model") ∈
      (tensorflow_pipeline p).dataInputs .batchPrediction ∧
    (tensorflow_pipeline p).scheduled fails .batchPrediction = false ∧
    (tensorflow_pipeline p).scheduled fails .loadPredictions = false := by
  have hflag : (tensorflow_pipeline p).lookup_model_args.fail_on_model_not_found
      = true := rfl
  have hf : fails .lookupModel = true := by
    rw [hlookup, hflag]
    simp [lookup_model_fails]
  have hdata : (tensorflow_pipeline p).dataInputs = stepDataInputs := rfl
  have hmem1 : StepId.lookupModel ∈
      (tensorflow_pipeline p).preds .batchPrediction := by
    rw [tensorflow_pipeline_preds]; decide
  have hmem2 : StepId.batchPrediction ∈
      (tensorflow_pipeline p).preds .loadPredictions := by
    rw [tensorflow_pipeline_preds]; decide
  have hlm_nc : StepId.lookupModel ∉
      (tensorflow_pipeline p).completed fails :=
    (tensorflow_pipeline p).not_completed_of_fails fails _ hf
  have hbp_nc : StepId.batchPrediction ∉
      (tensorflow_pipeline p).completed fails :=
    (tensorflow_pipeline p).not_completed_of_pred fails _ _ hmem1 hlm_nc
  refine ⟨by rw [hdata]; decide, ?_, ?_⟩
  · exact (tensorflow_pipeline p).not_scheduled_of_pred fails _ _ hmem1 hlm_nc
  · exact (tensorflow_pipeline p).not_scheduled_of_pred fails _ _ hmem2 hbp_nc

set_option maxRecDepth 8000 in
/-- Witness for C3: a concrete run where only model lookup fails blocks
batch inference and the load step. -/
theorem model_lookup_failure_blocks_inference_witness :
    lookupOnlyFails .lookupModel =
      lookup_model_fails false
        (tensorflow_pipeline sampleParams).lookup_model_args.fail_on_model_not_found ∧
    (tensorflow_pipeline sampleParams).scheduled lookupOnlyFails
      .batchPrediction = false ∧
    (tensorflow_pipeline sampleParams).scheduled lookupOnlyFails
      .loadPredictions = false :=
  ⟨by decide,
   (model_lookup_failure_blocks_inference sampleParams lookupOnlyFails
     (by decide)).2.1,
   (model_lookup_failure_blocks_inference sampleParams lookupOnlyFails
     (by decide)).2.2⟩

/-- Every dependency edge of the built graph (data or ordering) goes from
an earlier-declared step to a strictly later-declared one. -/
theorem stepPreds_index_lt : ∀ a b : StepId, a ∈ stepPreds b →
    stepIndex a < stepIndex b := by
  decide

/-- C2: For every valid parameter assignment, the graph produced by the
pipeline builder is acyclic (no step transitively depends on itself) and
every input of every step is produced by a step that is ordered strictly
before it in the builder's declaration order. -/
theorem built_graph_acyclic_and_ordered (p : PipelineParams) :
    (∀ s : StepId, ¬ Relation.TransGen (tensorflow_pipeline p).Edge s s) ∧
    (∀ s : StepId, ∀ d ∈ (tensorflow_pipeline p).dataInputs s,
      stepIndex d.1 < stepIndex s) ∧
    (∀ s : StepId, ∀ q ∈ (tensorflow_pipeline p).preds s,
      stepIndex q < stepIndex s) := by
  have hkey : ∀ a b : StepId, (tensorflow_pipeline p).Edge a b →
      stepIndex a < stepIndex b := by
    intro a b h
    have h' : a ∈ stepPreds b := by
      rw [← tensorflow_pipeline_preds p]
      exact h
    exact stepPreds_index_lt a b h'
  have htc : ∀ a b : StepId,
      Relation.TransGen (tensorflow_pipeline p).Edge a b →
      stepIndex a < stepIndex b := by
    intro a b h
    induction h with
    | single h1 => exact hkey _ _ h1
    | tail _ h2 ih => exact lt_trans ih (hkey _ _ h2)
  refine ⟨fun s hs => lt_irrefl _ (htc s s hs), ?_, ?_⟩
  · have hdata : (tensorflow_pipeline p).dataInputs = stepDataInputs := rfl
    rw [hdata]
    decide
  · rw [tensorflow_pipeline_preds]
    decide

/-- Witness for C2: a concrete data input of the statistics step is
produced by a strictly earlier step. -/
theorem built_graph_acyclic_and_ordered_witness :
    (StepId.dataForValidation, "dataset") ∈
      (tensorflow_pipeline sampleParams).dataInputs .generateStatistics ∧
    stepIndex .dataForValidation < stepIndex .generateStatistics :=
  ⟨by decide,
   (built_graph_acyclic_and_ordered sampleParams).2.1 .generateStatistics
     (.dataForValidation, "dataset") (by decide)⟩

/-- C4: With ingestion_dataset_id = "chicago_taxi_trips" and
timestamp = "2022-12-01 00:00:00", the rendered ingestion query filters
trip_start_timestamp >= '2022-12-01 00:00:00' against the table
{ingestion_project_id}.chicago_taxi_trips.taxi_trips. -/
theorem ingestion_query_rendered (p : PipelineParams)
    (h1 : p.ingestion_dataset_id = "chicago_taxi_trips")
    (h2 : p.timestamp = "2022-12-01 00:00:00") :
    (tensorflow_pipeline p).ingest_args.query =
      "SELECT * FROM " ++ p.ingestion_project_id ++
        ".chicago_taxi_trips.taxi_trips WHERE trip_start_timestamp >= " ++
        singleQuote ++ "2022-12-01 00:00:00" ++ singleQuote := by
  have hq : (tensorflow_pipeline p).ingest_args.query =
      generate_query (p.ingestion_project_id ++ "." ++ p.ingestion_dataset_id)
        "taxi_trips" "trip_start_timestamp" p.timestamp := rfl
  rw [hq, h1, h2]
  unfold generate_query
  simp only [string_append_assoc]
  exact congrArg
    (fun s => "SELECT * FROM " ++ (p.ingestion_project_id ++ s)) (by decide)

/-- Witness for C4 at the concrete sample parameters. -/
theorem ingestion_query_rendered_witness :
    sampleParams.ingestion_dataset_id = "chicago_taxi_trips" ∧
    sampleParams.timestamp = "2022-12-01 00:00:00" ∧
    (tensorflow_pipeline sampleParams).ingest_args.query =
      "SELECT * FROM " ++ sampleParams.ingestion_project_id ++
        ".chicago_taxi_trips.taxi_trips WHERE trip_start_timestamp >= " ++
        singleQuote ++ "2022-12-01 00:00:00" ++ singleQuote :=
  ⟨rfl, rfl, ingestion_query_rendered sampleParams rfl rfl⟩

/-- C5: The resolved schema path is the base storage path joined with the
fixed sub-path "prediction/assets" and the schema filename; with base
"gs://bucket" and filename "schema.pbtxt" it is
"gs://bucket/prediction/assets/schema.pbtxt". -/
theorem schema_path_resolution (p : PipelineParams) :
    (tensorflow_pipeline p).tfdv_schema_path =
      p.pipeline_files_gcs_path ++ "/prediction/assets/" ++
        p.tfdv_schema_filename ∧
    (p.pipeline_files_gcs_path = "gs://bucket" →
      p.tfdv_schema_filename = "schema.pbtxt" →
      (tensorflow_pipeline p).tfdv_schema_path =
        "gs://bucket/prediction/assets/schema.pbtxt") := by
  constructor
  · rfl
  · intro h1 h2
    have h0 : (tensorflow_pipeline p).tfdv_schema_path =
        p.pipeline_files_gcs_path ++ "/prediction/assets/" ++
          p.tfdv_schema_filename := rfl
    rw [h0, h1, h2]
    decide

/-- Witness for C5 at the concrete sample parameters. -/
theorem schema_path_resolution_witness :
    sampleParams.pipeline_files_gcs_path = "gs://bucket" ∧
    sampleParams.tfdv_schema_filename = "schema.pbtxt" ∧
    (tensorflow_pipeline sampleParams).tfdv_schema_path =
      "gs://bucket/prediction/assets/schema.pbtxt" :=
  ⟨rfl, rfl, (schema_path_resolution sampleParams).2 rfl rfl⟩

/-- C6: The ingest step writes the rendered query into the table named
"ingested_data" plus the fixed suffix "_tf_prediction", with write
disposition WRITE_TRUNCATE (truncate-and-replace, never append), and has
no dependency on any other step (parameters only). -/
theorem ingest_step_contract (p : PipelineParams) :
    (tensorflow_pipeline p).ingest_args.table_id =
      "ingested_data" ++ "_tf_prediction" ∧
    (tensorflow_pipeline p).ingest_args.write_disposition = "WRITE_TRUNCATE" ∧
    (tensorflow_pipeline p).dataInputs .ingest = [] ∧
    (tensorflow_pipeline p).afterEdges .ingest = [] :=
  ⟨rfl, rfl, rfl, rfl⟩

/-- C7: Both extraction steps carry an explicit ordering edge after the
ingest step and export the same ingested table with no file-name filter;
the prediction extract uses NEWLINE_DELIMITED_JSON while the validation
extract uses CSV, and the two steps are distinct (so their output
artifacts, each produced exactly once by its own step, are distinct
destinations). -/
theorem dual_extraction_contract (p : PipelineParams) :
    StepId.ingest ∈ (tensorflow_pipeline p).afterEdges .dataForPrediction ∧
    StepId.ingest ∈ (tensorflow_pipeline p).afterEdges .dataForValidation ∧
    (tensorflow_pipeline p).extract_prediction_args.table_name =
      (tensorflow_pipeline p).ingest_args.table_id ∧
    (tensorflow_pipeline p).extract_validation_args.table_name =
      (tensorflow_pipeline p).ingest_args.table_id ∧
    (tensorflow_pipeline p).extract_prediction_args.file_pattern = "" ∧
    (tensorflow_pipeline p).extract_validation_args.file_pattern = "" ∧
    (tensorflow_pipeline p).extract_prediction_args.destination_format =
      "NEWLINE_DELIMITED_JSON" ∧
    (tensorflow_pipeline p).extract_validation_args.destination_format =
      "CSV" ∧
    decide (StepId.dataForPrediction = StepId.dataForValidation) = false := by
  have h1 : (tensorflow_pipeline p).afterEdges = stepAfterEdges := rfl
  refine ⟨?_, ?_, rfl, rfl, rfl, rfl, rfl, rfl, by decide⟩
  · rw [h1]; decide
  · rw [h1]; decide

/-- C8: The derived staging-table name and the resolved schema path are a
deterministic function of the parameters: any two parameter assignments
that agree on the base storage path and the schema filename (in
particular, two identical assignments) yield the same ingested-table name
and the same schema path. -/
theorem derived_names_deterministic (p q : PipelineParams)
    (h1 : p.pipeline_files_gcs_path = q.pipeline_files_gcs_path)
    (h2 : p.tfdv_schema_filename = q.tfdv_schema_filename) :
    (tensorflow_pipeline p).ingest_args.table_id =
      (tensorflow_pipeline q).ingest_args.table_id ∧
    (tensorflow_pipeline p).tfdv_schema_path =
      (tensorflow_pipeline q).tfdv_schema_path := by
  constructor
  · rfl
  · show p.pipeline_files_gcs_path ++ "/prediction/assets/" ++
        p.tfdv_schema_filename =
      q.pipeline_files_gcs_path ++ "/prediction/assets/" ++
        q.tfdv_schema_filename
    rw [h1, h2]

/-- Witness for C8: two runs of the builder on the same parameters. -/
theorem derived_names_deterministic_witness :
    sampleParams.pipeline_files_gcs_path =
      sampleParams.pipeline_files_gcs_path ∧
    sampleParams.tfdv_schema_filename = sampleParams.tfdv_schema_filename ∧
    (tensorflow_pipeline sampleParams).ingest_args.table_id =
      (tensorflow_pipeline sampleParams).ingest_args.table_id ∧
    (tensorflow_pipeline sampleParams).tfdv_schema_path =
      (tensorflow_pipeline sampleParams).tfdv_schema_path :=
  ⟨rfl, rfl,
   (derived_names_deterministic sampleParams sampleParams rfl rfl).1,
   (derived_names_deterministic sampleParams sampleParams rfl rfl).2⟩

/-- C9: The statistics-visualization step has no consumer in the built
graph: no step (in particular not the skew validator, the anomaly gate,
batch inference or load predictions) has it among its predecessors, by
data or by explicit ordering. -/
theorem visualise_statistics_no_consumer (p : PipelineParams) :
    ∀ s : StepId,
      decide (StepId.visualiseStatistics ∈ (tensorflow_pipeline p).preds s)
        = false := by
  rw [tensorflow_pipeline_preds]
  decide

/-- C10: The two failure points of the built graph are hard-coded strict
for every parameter assignment: the anomaly gate always has
fail_on_anomalies = true and model lookup always has
fail_on_model_not_found = true. -/
theorem failure_points_hardcoded_strict (p : PipelineParams) :
    (tensorflow_pipeline p).show_anomalies_args.fail_on_anomalies = true ∧
    (tensorflow_pipeline p).lookup_model_args.fail_on_model_not_found
      = true :=
  ⟨rfl, rfl⟩
